import Mathlib

/-!
Shallow embedding of the doukutsu-rs runtime audio engine
(`src/sound/mod.rs`) and the combined input controller
(`src/input/combined_player_controller.rs`).

The `SoundManager` control-thread facade is embedded as a pure state
machine: the mpsc channel is modelled as the ordered list of messages
sent so far (the channel is modelled as healthy, i.e. the audio thread
is alive, so `Sender::send` succeeds).  File existence and the opaque
decoders (`organya::Song::load_from`, `OggStreamReader::new`) are
abstracted into an environment `Fs` of pure functions, as the spec
treats them (path-based virtual filesystem + opaque `decode`).
Decoded song payloads are type parameters `Song` (Organya) and `R`
(Ogg reader).

The playback thread's command handler and per-frame mixing loop are
embedded over abstract renderer operations (`OrgOps`, `OggOps`,
`PxtOps`), matching the spec's treatment of the renderers as opaque
components with `render_to` / `get_state` / `set_state`.  16-bit
sample arithmetic is done in `Nat`/`Int` with explicit wrapping.
`f32`/`f64` scalars (speed factor, analog axes) are modelled as `ℚ`.
-/

namespace DoukutsuRS

/-- Song format tag, from `enum SongFormat` in `src/sound/mod.rs`. -/
inductive SongFormat where
  | Organya
  | OggSinglePart
  | OggMultiPart
  deriving DecidableEq, Repr

/-- Commands sent from the control thread to the playback thread,
from `enum PlaybackMessage`.  `Song` is the decoded Organya song
payload type, `R` the Ogg stream reader type; the speed factor `f32`
is modelled as `ℚ`. -/
inductive PlaybackMessage (Song R : Type) where
  | stop
  | playOrganyaSong (song : Song)
  | playOggSongSinglePart (data : R)
  | playOggSongMultiPart (dataIntro dataLoop : R)
  | playSample (id : Nat)
  | setSpeed (speed : ℚ)
  | saveState
  | restoreState
  deriving DecidableEq, Repr

/-- Errors of the `GameError` type that this core can produce. -/
inductive GameError where
  | InvalidValue (msg : String)
  | AudioError (msg : String)
  | ResourceLoadError (msg : String)
  deriving DecidableEq, Repr

/-- `GameResult` of the source: `Result<(), GameError>`. -/
abbrev GameResult := Except GameError Unit

/-- The parts of `EngineConstants` that `play_song` reads:
`music_table` (song id → song name, a `Vec` indexed by id),
`organya_paths` (built-in fallback path list) and `soundtracks`
(a name → directory map, modelled as an association list). -/
structure EngineConstants where
  music_table : List String
  organya_paths : List String
  soundtracks : List (String × String)

/-- The part of `Settings` that `play_song` reads. -/
structure Settings where
  soundtrack : String

/-- Environment abstracting `filesystem::exists` and the two opaque
open+decode pipelines of `play_song`:
`loadOrganya p` models `filesystem::open(ctx, p).map(|f| Song::load_from(f))`
collapsed to a single `Except` (success = `Ok(Ok(..))`), and
`loadOgg p` models `filesystem::open(ctx, p).map(|f| OggStreamReader::new(f))`
likewise. -/
structure Fs (Song R : Type) where
  fileExists : String → Bool
  loadOrganya : String → Except String Song
  loadOgg : String → Except String R

/-- Control-thread state of `struct SoundManager`; the `tx` channel end
is modelled by `sent`, the ordered list of messages sent so far. -/
structure SoundManager (Song R : Type) where
  sent : List (PlaybackMessage Song R)
  prev_song_id : Nat
  current_song_id : Nat
  deriving DecidableEq, Repr

variable {Song R : Type}

/-- The candidate (format, referenced paths) triple built for one path
prefix inside `play_song` (the array in `songs_paths`). -/
def candidatesFor (dir song_name : String) : List (SongFormat × List String) :=
  [ (SongFormat.OggMultiPart,
      [dir ++ song_name ++ "_intro.ogg", dir ++ song_name ++ "_loop.ogg"]),
    (SongFormat.OggSinglePart, [dir ++ song_name ++ ".ogg"]),
    (SongFormat.Organya, [dir ++ song_name ++ ".org"]) ]

/-- The ordered prefix list built by `play_song`: start from
`constants.organya_paths`, insert `"/Soundtracks/{soundtrack}/"` at the
front, then insert the soundtrack-specific directory at the front when
the `soundtracks` map has an entry for the selected soundtrack. -/
def buildPaths (constants : EngineConstants) (settings : Settings) : List String :=
  let paths := ("/Soundtracks/" ++ settings.soundtrack ++ "/") :: constants.organya_paths
  match constants.soundtracks.lookup settings.soundtrack with
  | some dir => dir :: paths
  | none => paths

/-- Attempt to open and decode one candidate whose files are known to
exist, producing the start command on success (`Ok(Ok(..))` arms of the
three `match` blocks in `play_song`); `none` models the warn-and-continue
arms. -/
def startMsg (fs : Fs Song R) (format : SongFormat) (paths : List String) :
    Option (PlaybackMessage Song R) :=
  match format with
  | SongFormat.Organya =>
    match fs.loadOrganya (paths.headD "") with
    | Except.ok org => some (PlaybackMessage.playOrganyaSong org)
    | Except.error _ => none
  | SongFormat.OggSinglePart =>
    match fs.loadOgg (paths.headD "") with
    | Except.ok song => some (PlaybackMessage.playOggSongSinglePart song)
    | Except.error _ => none
  | SongFormat.OggMultiPart =>
    match fs.loadOgg (paths.headD ""), fs.loadOgg (paths.getD 1 "") with
    | Except.ok song_intro, Except.ok song_loop =>
      some (PlaybackMessage.playOggSongMultiPart song_intro song_loop)
    | Except.ok _, Except.error _ => none
    | Except.error _, _ => none

/-- The successful-resolution state update of `play_song`: record ids,
send `SaveState` then the start command. -/
def startState (sm : SoundManager Song R) (song_id : Nat)
    (msg : PlaybackMessage Song R) : SoundManager Song R :=
  { sm with
    prev_song_id := sm.current_song_id
    current_song_id := song_id
    sent := sm.sent ++ [PlaybackMessage.saveState, msg] }

/-- Inner loop of `play_song` over one prefix's candidate list:
`songs.iter().filter(|(_, paths)| paths.iter().all(exists))` followed by
the per-format open/decode attempt; the first success returns. -/
def tryFormats (fs : Fs Song R) (sm : SoundManager Song R) (song_id : Nat) :
    List (SongFormat × List String) → Option (SoundManager Song R)
  | [] => none
  | (format, paths) :: rest =>
    if paths.all fs.fileExists then
      match startMsg fs format paths with
      | some msg => some (startState sm song_id msg)
      | none => tryFormats fs sm song_id rest
    else
      tryFormats fs sm song_id rest

/-- Outer loop of `play_song` over the ordered prefix list. -/
def tryPaths (fs : Fs Song R) (sm : SoundManager Song R) (song_id : Nat)
    (song_name : String) : List String → Option (SoundManager Song R)
  | [] => none
  | dir :: rest =>
    match tryFormats fs sm song_id (candidatesFor dir song_name) with
    | some sm' => some sm'
    | none => tryPaths fs sm song_id song_name rest

/-- `SoundManager::play_song`.  Returns the updated manager state and
the `GameResult` returned to the caller. -/
def SoundManager.play_song (sm : SoundManager Song R) (song_id : Nat)
    (fs : Fs Song R) (constants : EngineConstants) (settings : Settings) :
    SoundManager Song R × GameResult :=
  if sm.current_song_id = song_id then
    (sm, Except.ok ())
  else if song_id = 0 then
    ({ sm with
        prev_song_id := sm.current_song_id
        current_song_id := 0
        sent := sm.sent ++ [PlaybackMessage.saveState, PlaybackMessage.stop] },
      Except.ok ())
  else
    match constants.music_table.get? song_id with
    | some song_name =>
      match tryPaths fs sm song_id song_name (buildPaths constants settings) with
      | some sm' => (sm', Except.ok ())
      | none => (sm, Except.ok ())
    | none => (sm, Except.ok ())

/-- `SoundManager::play_sfx`: fire-and-forget (`let _ = self.tx.send(..)`). -/
def SoundManager.play_sfx (sm : SoundManager Song R) (id : Nat) : SoundManager Song R :=
  { sm with sent := sm.sent ++ [PlaybackMessage.playSample id] }

/-- `SoundManager::save_state`. -/
def SoundManager.save_state (sm : SoundManager Song R) :
    SoundManager Song R × GameResult :=
  ({ sm with
      sent := sm.sent ++ [PlaybackMessage.saveState]
      prev_song_id := sm.current_song_id },
    Except.ok ())

/-- `SoundManager::restore_state`. -/
def SoundManager.restore_state (sm : SoundManager Song R) :
    SoundManager Song R × GameResult :=
  ({ sm with
      sent := sm.sent ++ [PlaybackMessage.restoreState]
      current_song_id := sm.prev_song_id },
    Except.ok ())

/-- `SoundManager::set_speed` (`f32` speed modelled as `ℚ`). -/
def SoundManager.set_speed (sm : SoundManager Song R) (speed : ℚ) :
    SoundManager Song R × GameResult :=
  if speed ≤ 0 then
    (sm, Except.error (GameError.InvalidValue "Speed must be bigger than 0.0!"))
  else
    ({ sm with sent := sm.sent ++ [PlaybackMessage.setSpeed speed] }, Except.ok ())

/-- `SoundManager::current_song`. -/
def SoundManager.current_song (sm : SoundManager Song R) : Nat :=
  sm.current_song_id

/-! ## Playback thread (`fn run` in `src/sound/mod.rs`) -/

/-- `enum PlaybackState`. -/
inductive PlaybackState where
  | Stopped
  | PlayingOrg
  | PlayingOgg
  deriving DecidableEq, Repr

/-- `enum PlaybackStateType`: the saved playback snapshot, with opaque
per-renderer snapshot payload types `SO` (Organya) and `SG` (Ogg). -/
inductive PlaybackStateType (SO SG : Type) where
  | none
  | organya (s : SO)
  | ogg (s : SG)
  deriving DecidableEq, Repr

/-- Opaque interface of `OrgPlaybackEngine` as used by `run`:
engine state type `E`, snapshot type `S`, song payload type `Song`.
`render_to e buf = (e', buf', n)` models `e.render_to(&mut buf)`
returning `n` with `buf` mutated to `buf'`; the operations may close
over the sound bank (`&bank`). -/
structure OrgOps (E S Song : Type) where
  start_song : E → Song → E
  get_state : E → S
  set_state : E → S → E
  rewind : E → E
  render_to : E → List Nat → E × List Nat × Nat
  set_sample_rate : E → Nat → E

/-- Opaque interface of `OggPlaybackEngine` as used by `run`, with Ogg
reader payload type `R`. -/
structure OggOps (E S R : Type) where
  start_single : E → R → E
  start_multi : E → R → R → E
  get_state : E → S
  set_state : E → S → E
  rewind : E → E
  render_to : E → List Nat → E × List Nat × Nat
  set_sample_rate : E → Nat → E

/-- Opaque interface of `PixTonePlayback` as used by `run`:
`mix p buf rate = (p', buf')` models `p.mix(&mut buf, rate)`. -/
structure PxtOps (P : Type) where
  play_sfx : P → Nat → P
  mix : P → List Nat → ℚ → P × List Nat

/-- The audio-callback-owned mutable state of `run`. -/
structure RunState (EO SO EG SG P : Type) where
  state : PlaybackState
  saved_state : PlaybackStateType SO SG
  org_engine : EO
  ogg_engine : EG
  pixtone : P
  speed : ℚ
  bgm_buf : List Nat
  samples : Nat
  bgm_index : Nat
  pxt_buf : List Nat
  pxt_index : Nat
  deriving DecidableEq, Repr

variable {EO SO EG SG P : Type}

/-- `for i in &mut buf[0..n] { *i = v }`: overwrite the first `n`
elements of `buf` with `v`. -/
def fillFirst (v : Nat) : Nat → List Nat → List Nat
  | _, [] => []
  | 0, buf => buf
  | n + 1, _ :: rest => v :: fillFirst v n rest

/-- Handle one drained `PlaybackMessage` inside the audio callback of `run`
(`match rx.try_recv()` arms).  `sample_rate` is the hardware rate captured
by the closure.  The `assert!(new_speed > 0.0)` of the `SetSpeed` arm is a
programming-contract assertion enforced upstream by `set_speed`; the model
performs the arm's computation.  `(sample_rate / new_speed) as usize`
is modelled as the floor of the rational quotient. -/
def handleMessage (orgOps : OrgOps EO SO Song) (oggOps : OggOps EG SG R)
    (pxtOps : PxtOps P) (sample_rate : ℚ) (st : RunState EO SO EG SG P) :
    PlaybackMessage Song R → RunState EO SO EG SG P
  | PlaybackMessage.playOrganyaSong song =>
    let saved := if st.state = PlaybackState.Stopped then PlaybackStateType.none
                 else st.saved_state
    let e := orgOps.start_song st.org_engine song
    let r := orgOps.render_to e (fillFirst 0x8080 st.samples st.bgm_buf)
    { st with
      saved_state := saved, org_engine := r.1, bgm_buf := r.2.1,
      samples := r.2.2, bgm_index := 0, state := PlaybackState.PlayingOrg }
  | PlaybackMessage.playOggSongSinglePart dat =>
    let saved := if st.state = PlaybackState.Stopped then PlaybackStateType.none
                 else st.saved_state
    let e := oggOps.start_single st.ogg_engine dat
    let r := oggOps.render_to e (fillFirst 0x8000 st.samples st.bgm_buf)
    { st with
      saved_state := saved, ogg_engine := r.1, bgm_buf := r.2.1,
      samples := r.2.2, bgm_index := 0, state := PlaybackState.PlayingOgg }
  | PlaybackMessage.playOggSongMultiPart dataIntro dataLoop =>
    let saved := if st.state = PlaybackState.Stopped then PlaybackStateType.none
                 else st.saved_state
    let e := oggOps.start_multi st.ogg_engine dataIntro dataLoop
    let r := oggOps.render_to e (fillFirst 0x8000 st.samples st.bgm_buf)
    { st with
      saved_state := saved, ogg_engine := r.1, bgm_buf := r.2.1,
      samples := r.2.2, bgm_index := 0, state := PlaybackState.PlayingOgg }
  | PlaybackMessage.playSample id =>
    { st with pixtone := pxtOps.play_sfx st.pixtone id }
  | PlaybackMessage.stop =>
    let saved := if st.state = PlaybackState.Stopped then PlaybackStateType.none
                 else st.saved_state
    { st with saved_state := saved, state := PlaybackState.Stopped }
  | PlaybackMessage.setSpeed new_speed =>
    { st with
      speed := new_speed
      ogg_engine := oggOps.set_sample_rate st.ogg_engine (sample_rate / new_speed).floor.toNat
      org_engine := orgOps.set_sample_rate st.org_engine (sample_rate / new_speed).floor.toNat }
  | PlaybackMessage.saveState =>
    { st with
      saved_state :=
        match st.state with
        | PlaybackState.Stopped => PlaybackStateType.none
        | PlaybackState.PlayingOrg => PlaybackStateType.organya (orgOps.get_state st.org_engine)
        | PlaybackState.PlayingOgg => PlaybackStateType.ogg (oggOps.get_state st.ogg_engine) }
  | PlaybackMessage.restoreState =>
    match st.saved_state with
    | PlaybackStateType.none => { st with saved_state := PlaybackStateType.none }
    | PlaybackStateType.organya playback_state =>
      let e1 := orgOps.set_state st.org_engine playback_state
      let e2 := if st.state = PlaybackState.Stopped then orgOps.rewind e1 else e1
      let r := orgOps.render_to e2 (fillFirst 0x8080 st.samples st.bgm_buf)
      { st with
        saved_state := PlaybackStateType.none, org_engine := r.1, bgm_buf := r.2.1,
        samples := r.2.2, bgm_index := 0, state := PlaybackState.PlayingOrg }
    | PlaybackStateType.ogg playback_state =>
      let e1 := oggOps.set_state st.ogg_engine playback_state
      let e2 := if st.state = PlaybackState.Stopped then oggOps.rewind e1 else e1
      let r := oggOps.render_to e2 (fillFirst 0x8000 st.samples st.bgm_buf)
      { st with
        saved_state := PlaybackStateType.none, ogg_engine := r.1, bgm_buf := r.2.1,
        samples := r.2.2, bgm_index := 0, state := PlaybackState.PlayingOgg }

/-! ### 16-bit mixing arithmetic

`u16` values are `Nat` taken modulo `2^16`, `i16` casts are explicit. -/

/-- `x as i16` for a `u16` value `x` (interpretation as a signed 16-bit
integer). -/
def toI16 (x : Nat) : Int :=
  if x % 65536 < 32768 then ((x % 65536 : Nat) : Int)
  else ((x % 65536 : Nat) : Int) - 65536

/-- Wrap an integer into the signed 16-bit range (two's-complement
wrapping, the release-mode semantics of `i16` addition). -/
def wrapI16 (x : Int) : Int :=
  (x + 32768).emod 65536 - 32768

/-- `num_traits::clamp(v, lo, hi)`. -/
def clampInt (v lo hi : Int) : Int :=
  if v < lo then lo else if v > hi then hi else v

/-- `x as u16` for an `isize` value `x`. -/
def asU16 (x : Int) : Nat :=
  (x.emod 65536).toNat

/-- Stereo per-channel mix of `run`'s output loop: re-center the biased
`u16` samples with `^ 0x8000`, cast to `i16`, sum as `isize`, clamp to
`[-0x7fff, 0x7fff]`, cast back to `u16` and re-bias. -/
def mix_sample (bgm pxt : Nat) : Nat :=
  asU16 (clampInt (toI16 (bgm ^^^ 0x8000) + toI16 (pxt ^^^ 0x8000)) (-0x7fff) 0x7fff) ^^^ 0x8000

/-- Mono mix of `run`'s output loop: average the two background channels
in `i16` arithmetic (wrapping addition, truncating division by 2), then
add the effect sample as `isize`, clamp and re-bias. -/
def mix_sample_mono (bgm_l bgm_r pxt : Nat) : Nat :=
  asU16 (clampInt
    (Int.tdiv (wrapI16 (toI16 (bgm_l ^^^ 0x8000) + toI16 (bgm_r ^^^ 0x8000))) 2
      + toI16 (pxt ^^^ 0x8000))
    (-0x7fff) 0x7fff) ^^^ 0x8000

/-- The background-sample acquisition block of the per-frame loop:
produce the `(bgm_sample_l, bgm_sample_r)` pair, advancing the cursor
and re-rendering when the buffer is exhausted.  The `Stopped` arms of
the two inner `match`es model the source's `unreachable!()` (the outer
branch conditions exclude them). -/
def getBgmPair (orgOps : OrgOps EO SO Song) (oggOps : OggOps EG SG R)
    (st : RunState EO SO EG SG P) : RunState EO SO EG SG P × Nat × Nat :=
  if st.state = PlaybackState.Stopped then
    (st, 0x8000, 0x8000)
  else if st.bgm_index < st.samples then
    match st.state with
    | PlaybackState.PlayingOrg =>
      let sample := st.bgm_buf.getD st.bgm_index 0
      ({ st with bgm_index := st.bgm_index + 1 },
        (sample &&& 0xff) <<< 8, sample &&& 0xff00)
    | PlaybackState.PlayingOgg =>
      ({ st with bgm_index := st.bgm_index + 2 },
        st.bgm_buf.getD st.bgm_index 0, st.bgm_buf.getD (st.bgm_index + 1) 0)
    | PlaybackState.Stopped => (st, 0x8000, 0x8000)
  else
    let buf0 := fillFirst 0x8080 st.samples st.bgm_buf
    match st.state with
    | PlaybackState.PlayingOrg =>
      let r := orgOps.render_to st.org_engine buf0
      let sample := r.2.1.getD 0 0
      ({ st with org_engine := r.1, bgm_buf := r.2.1, samples := r.2.2, bgm_index := 1 },
        (sample &&& 0xff) <<< 8, sample &&& 0xff00)
    | PlaybackState.PlayingOgg =>
      let r := oggOps.render_to st.ogg_engine buf0
      ({ st with ogg_engine := r.1, bgm_buf := r.2.1, samples := r.2.2, bgm_index := 2 },
        r.2.1.getD 0 0, r.2.1.getD 1 0)
    | PlaybackState.Stopped => (st, 0x8000, 0x8000)

/-- One iteration of `for frame in data.chunks_mut(channels)`: returns
the updated state and the list of sample values written to the frame
(`[l, r]` when the frame holds at least two slots, else the single mono
sample). -/
def frameStep (orgOps : OrgOps EO SO Song) (oggOps : OggOps EG SG R)
    (pxtOps : PxtOps P) (sample_rate : ℚ) (channels : Nat)
    (st : RunState EO SO EG SG P) : RunState EO SO EG SG P × List Nat :=
  let r1 := getBgmPair orgOps oggOps st
  let st1 := r1.1
  let bgm_sample_l := r1.2.1
  let bgm_sample_r := r1.2.2
  let pxt_sample := st1.pxt_buf.getD st1.pxt_index 0
  let st2 :=
    if st1.pxt_index < st1.pxt_buf.length - 1 then
      { st1 with pxt_index := st1.pxt_index + 1 }
    else
      let m := pxtOps.mix st1.pixtone
        (List.replicate st1.pxt_buf.length 0x8000) (sample_rate / st1.speed)
      { st1 with pxt_index := 0, pixtone := m.1, pxt_buf := m.2 }
  let out :=
    if 2 ≤ channels then
      [mix_sample bgm_sample_l pxt_sample, mix_sample bgm_sample_r pxt_sample]
    else
      [mix_sample_mono bgm_sample_l bgm_sample_r pxt_sample]
  (st2, out)

/-! ## Combined input controller
(`src/input/combined_player_controller.rs`)

A member of the collection is a `dyn PlayerController` trait object;
its observable query surface at one instant is a record of the answers
each query method returns (`f64` analog axes modelled as `ℚ`). -/

/-- Query surface of the `PlayerController` trait. -/
structure PlayerController where
  move_up : Bool
  move_down : Bool
  move_left : Bool
  move_right : Bool
  prev_weapon : Bool
  next_weapon : Bool
  shoot : Bool
  jump : Bool
  map : Bool
  inventory : Bool
  skip : Bool
  strafe : Bool
  trigger_up : Bool
  trigger_down : Bool
  trigger_left : Bool
  trigger_right : Bool
  trigger_prev_weapon : Bool
  trigger_next_weapon : Bool
  trigger_shoot : Bool
  trigger_jump : Bool
  trigger_map : Bool
  trigger_inventory : Bool
  trigger_skip : Bool
  trigger_strafe : Bool
  trigger_menu_ok : Bool
  trigger_menu_back : Bool
  trigger_menu_pause : Bool
  look_up : Bool
  look_down : Bool
  look_left : Bool
  look_right : Bool
  move_analog_x : ℚ
  move_analog_y : ℚ
  deriving DecidableEq, Repr

/-- `struct CombinedPlayerController`. -/
structure CombinedPlayerController where
  controllers : List PlayerController
  deriving DecidableEq, Repr

/-- `CombinedPlayerController::new`. -/
def CombinedPlayerController.new : CombinedPlayerController :=
  { controllers := [] }

/-- `CombinedPlayerController::add`. -/
def CombinedPlayerController.add (c : CombinedPlayerController)
    (controller : PlayerController) : CombinedPlayerController :=
  { c with controllers := c.controllers ++ [controller] }

/-- `f64::clamp(lo, hi)` on the `ℚ` model. -/
def fclamp (x lo hi : ℚ) : ℚ :=
  if x < lo then lo else if x > hi then hi else x

namespace CombinedPlayerController

def move_up (c : CombinedPlayerController) : Bool :=
  c.controllers.any (fun cont => cont.move_up)

def move_down (c : CombinedPlayerController) : Bool :=
  c.controllers.any (fun cont => cont.move_down)

def move_left (c : CombinedPlayerController) : Bool :=
  c.controllers.any (fun cont => cont.move_left)

def move_right (c : CombinedPlayerController) : Bool :=
  c.controllers.any (fun cont => cont.move_right)

def prev_weapon (c : CombinedPlayerController) : Bool :=
  c.controllers.any (fun cont => cont.prev_weapon)

def next_weapon (c : CombinedPlayerController) : Bool :=
  c.controllers.any (fun cont => cont.next_weapon)

def shoot (c : CombinedPlayerController) : Bool :=
  c.controllers.any (fun cont => cont.shoot)

def jump (c : CombinedPlayerController) : Bool :=
  c.controllers.any (fun cont => cont.jump)

def map (c : CombinedPlayerController) : Bool :=
  c.controllers.any (fun cont => cont.map)

def inventory (c : CombinedPlayerController) : Bool :=
  c.controllers.any (fun cont => cont.inventory)

def skip (c : CombinedPlayerController) : Bool :=
  c.controllers.any (fun cont => cont.skip)

def strafe (c : CombinedPlayerController) : Bool :=
  c.controllers.any (fun cont => cont.strafe)

def trigger_up (c : CombinedPlayerController) : Bool :=
  c.controllers.any (fun cont => cont.trigger_up)

def trigger_down (c : CombinedPlayerController) : Bool :=
  c.controllers.any (fun cont => cont.trigger_down)

def trigger_left (c : CombinedPlayerController) : Bool :=
  c.controllers.any (fun cont => cont.trigger_left)

def trigger_right (c : CombinedPlayerController) : Bool :=
  c.controllers.any (fun cont => cont.trigger_right)

def trigger_prev_weapon (c : CombinedPlayerController) : Bool :=
  c.controllers.any (fun cont => cont.trigger_prev_weapon)

def trigger_next_weapon (c : CombinedPlayerController) : Bool :=
  c.controllers.any (fun cont => cont.trigger_next_weapon)

def trigger_shoot (c : CombinedPlayerController) : Bool :=
  c.controllers.any (fun cont => cont.trigger_shoot)

def trigger_jump (c : CombinedPlayerController) : Bool :=
  c.controllers.any (fun cont => cont.trigger_jump)

def trigger_map (c : CombinedPlayerController) : Bool :=
  c.controllers.any (fun cont => cont.trigger_map)

def trigger_inventory (c : CombinedPlayerController) : Bool :=
  c.controllers.any (fun cont => cont.trigger_inventory)

def trigger_skip (c : CombinedPlayerController) : Bool :=
  c.controllers.any (fun cont => cont.trigger_skip)

def trigger_strafe (c : CombinedPlayerController) : Bool :=
  c.controllers.any (fun cont => cont.trigger_strafe)

def trigger_menu_ok (c : CombinedPlayerController) : Bool :=
  c.controllers.any (fun cont => cont.trigger_menu_ok)

def trigger_menu_back (c : CombinedPlayerController) : Bool :=
  c.controllers.any (fun cont => cont.trigger_menu_back)

def trigger_menu_pause (c : CombinedPlayerController) : Bool :=
  c.controllers.any (fun cont => cont.trigger_menu_pause)

def look_up (c : CombinedPlayerController) : Bool :=
  c.controllers.any (fun cont => cont.look_up)

def look_down (c : CombinedPlayerController) : Bool :=
  c.controllers.any (fun cont => cont.look_down)

def look_right (c : CombinedPlayerController) : Bool :=
  c.controllers.any (fun cont => cont.look_right)

def look_left (c : CombinedPlayerController) : Bool :=
  c.controllers.any (fun cont => cont.look_left)

def move_analog_x (c : CombinedPlayerController) : ℚ :=
  fclamp (c.controllers.foldl (fun acc cont => acc + cont.move_analog_x) 0) (-1) 1

def move_analog_y (c : CombinedPlayerController) : ℚ :=
  fclamp (c.controllers.foldl (fun acc cont => acc + cont.move_analog_y) 0) (-1) 1

end CombinedPlayerController

/-! ## Spec-side resolver (refinement reference for the resolution order) -/

/-- One candidate of the spec's trial sequence: eligible only when every
referenced file exists, successful when it also decodes. -/
def resolveCandidate (fs : Fs Song R) (c : SongFormat × List String) :
    Option (PlaybackMessage Song R) :=
  if c.2.all fs.fileExists then startMsg fs c.1 c.2 else none

/-- Resolver following the spec's words: for each prefix of the ordered
prefix list, try `StreamedDual` (`OggMultiPart`), then `StreamedSingle`
(`OggSinglePart`), then `Sequenced` (`Organya`), attempting a candidate
only when all its referenced files exist, and select the first
combination that exists and decodes, stopping there. -/
def specResolve (fs : Fs Song R) (dirs : List String) (song_name : String) :
    Option (PlaybackMessage Song R) :=
  dirs.findSome? (fun dir => (candidatesFor dir song_name).findSome? (resolveCandidate fs))

/-! ## Concrete fixtures (used by witness theorems) -/

/-- Concrete filesystem: only `/Soundtracks/ST/quiet.org` exists, and it
decodes as the Organya payload `42`. -/
def fs0 : Fs Nat Nat :=
  { fileExists := fun p => p == "/Soundtracks/ST/quiet.org"
    loadOrganya := fun p =>
      if p == "/Soundtracks/ST/quiet.org" then Except.ok 42 else Except.error "missing"
    loadOgg := fun _ => Except.error "missing" }

/-- Concrete filesystem with no files at all. -/
def fsEmpty : Fs Nat Nat :=
  { fileExists := fun _ => false
    loadOrganya := fun _ => Except.error "missing"
    loadOgg := fun _ => Except.error "missing" }

/-- Concrete engine constants: song id 1 is named `quiet`, no extra
built-in paths, no named-soundtrack overrides. -/
def constants0 : EngineConstants :=
  { music_table := ["xxxx", "quiet"], organya_paths := [], soundtracks := [] }

/-- Concrete settings selecting soundtrack `ST`. -/
def settings0 : Settings :=
  { soundtrack := "ST" }

/-- Fresh manager state. -/
def sm0 : SoundManager Nat Nat :=
  { sent := [], prev_song_id := 0, current_song_id := 0 }

/-- Manager state currently playing song 7. -/
def sm1 : SoundManager Nat Nat :=
  { sent := [], prev_song_id := 3, current_song_id := 7 }

/-- Concrete Organya engine operations over `Nat` states. -/
def orgOps0 : OrgOps Nat Nat Nat :=
  { start_song := fun e song => e + song
    get_state := fun e => e
    set_state := fun e s => e * 100 + s
    rewind := fun e => e + 1000
    render_to := fun e buf => (e, buf, buf.length)
    set_sample_rate := fun e _ => e }

/-- Concrete Ogg engine operations over `Nat` states. -/
def oggOps0 : OggOps Nat Nat Nat :=
  { start_single := fun e dat => e + dat
    start_multi := fun e a b => e + a + b
    get_state := fun e => e
    set_state := fun e s => e * 100 + s
    rewind := fun e => e + 1000
    render_to := fun e buf => (e, buf, buf.length)
    set_sample_rate := fun e _ => e }

/-- Concrete PixTone operations over `Nat` state. -/
def pxtOps0 : PxtOps Nat :=
  { play_sfx := fun p id => p + id
    mix := fun p buf _ => (p, buf) }

/-- Thread state with a pending Organya snapshot, currently stopped. -/
def st_org : RunState Nat Nat Nat Nat Nat :=
  { state := PlaybackState.Stopped
    saved_state := PlaybackStateType.organya 5
    org_engine := 2
    ogg_engine := 3
    pixtone := 0
    speed := 1
    bgm_buf := [1, 2, 3, 4]
    samples := 2
    bgm_index := 7
    pxt_buf := [0x8000]
    pxt_index := 0 }

/-- Thread state with a pending Ogg snapshot, currently playing Organya. -/
def st_ogg : RunState Nat Nat Nat Nat Nat :=
  { st_org with state := PlaybackState.PlayingOrg, saved_state := PlaybackStateType.ogg 9 }

/-- Thread state with no snapshot. -/
def st_none : RunState Nat Nat Nat Nat Nat :=
  { st_org with saved_state := PlaybackStateType.none }

/-- Stopped thread state with an all-silence effects buffer. -/
def st_stop : RunState Nat Nat Nat Nat Nat :=
  { state := PlaybackState.Stopped
    saved_state := PlaybackStateType.none
    org_engine := 0
    ogg_engine := 0
    pixtone := 0
    speed := 1
    bgm_buf := [0x8080, 0x8080]
    samples := 0
    bgm_index := 0
    pxt_buf := [0x8000, 0x8000, 0x8000]
    pxt_index := 1 }

/-! ## Helper lemmas -/

/-- The inner candidate loop of `play_song` is the first-success search
over `resolveCandidate`, tagged with the success state update. -/
theorem tryFormats_eq_findSome (fs : Fs Song R) (sm : SoundManager Song R)
    (song_id : Nat) (l : List (SongFormat × List String)) :
    tryFormats fs sm song_id l
      = (l.findSome? (resolveCandidate fs)).map (startState sm song_id) := by
  induction l with
  | nil => rfl
  | cons c rest ih =>
    obtain ⟨format, paths⟩ := c
    by_cases h : paths.all fs.fileExists = true
    · cases hm : startMsg fs format paths with
      | some msg => simp [tryFormats, List.findSome?_cons, resolveCandidate, h, hm]
      | none => simp [tryFormats, List.findSome?_cons, resolveCandidate, h, hm, ih]
    · simp [tryFormats, List.findSome?_cons, resolveCandidate, h, ih]

/-- The outer prefix loop of `play_song` is the spec-side resolver,
tagged with the success state update. -/
theorem tryPaths_eq_findSome (fs : Fs Song R) (sm : SoundManager Song R)
    (song_id : Nat) (song_name : String) (dirs : List String) :
    tryPaths fs sm song_id song_name dirs
      = (specResolve fs dirs song_name).map (startState sm song_id) := by
  induction dirs with
  | nil => rfl
  | cons dir rest ih =>
    cases hm : (candidatesFor dir song_name).findSome? (resolveCandidate fs) with
    | some msg =>
      simp [tryPaths, specResolve, List.findSome?_cons, tryFormats_eq_findSome, hm]
    | none =>
      simp only [tryPaths, specResolve, List.findSome?_cons, tryFormats_eq_findSome, hm,
        Option.map_none']
      simpa [specResolve] using ih

/-- Characterization of `play_song` on a fresh non-zero id with a music
table entry: the result is dictated by the spec-side resolver. -/
theorem play_song_resolves (fs : Fs Song R) (constants : EngineConstants)
    (settings : Settings) (sm : SoundManager Song R) (song_id : Nat) (song_name : String)
    (hcur : sm.current_song_id ≠ song_id) (h0 : song_id ≠ 0)
    (hname : constants.music_table.get? song_id = some song_name) :
    sm.play_song song_id fs constants settings
      = (match specResolve fs (buildPaths constants settings) song_name with
         | some msg => startState sm song_id msg
         | none => sm,
        Except.ok ()) := by
  unfold SoundManager.play_song
  rw [if_neg hcur, if_neg h0, hname]
  have h := tryPaths_eq_findSome fs sm song_id song_name (buildPaths constants settings)
  cases hspec : specResolve fs (buildPaths constants settings) song_name <;>
    rw [hspec] at h <;> simp [h]

/-! ## Claim theorems -/

/-- C1: for every prefix in the ordered prefix list, `play_song` with a
non-zero song id not equal to the current one tries the candidate
formats in the fixed order dual-part Ogg, single-part Ogg, Organya,
attempts a candidate only when every referenced file exists, and
selects the first format+prefix combination that both exists and
decodes, stopping resolution there: its outcome coincides with the
spec-side first-success resolver `specResolve`, which tries exactly
that ordered trial sequence; on success exactly `SaveState` followed
by the selected start command is sent and the ids are updated. -/
theorem claim_C1_resolution_order (fs : Fs Song R) (constants : EngineConstants)
    (settings : Settings) (sm : SoundManager Song R) (song_id : Nat) (song_name : String)
    (hcur : sm.current_song_id ≠ song_id) (h0 : song_id ≠ 0)
    (hname : constants.music_table.get? song_id = some song_name) :
    sm.play_song song_id fs constants settings
      = (match specResolve fs (buildPaths constants settings) song_name with
         | some msg => startState sm song_id msg
         | none => sm,
        Except.ok ()) :=
  play_song_resolves fs constants settings sm song_id song_name hcur h0 hname

/-- C2: when every candidate combination either has a missing file or
fails to decode, `play_song` on a fresh non-zero id returns `Ok`,
sends nothing, and leaves `current_song_id` and `prev_song_id`
unchanged. -/
theorem claim_C2_all_candidates_fail_silent (fs : Fs Song R)
    (constants : EngineConstants) (settings : Settings) (sm : SoundManager Song R)
    (song_id : Nat) (song_name : String)
    (hcur : sm.current_song_id ≠ song_id) (h0 : song_id ≠ 0)
    (hname : constants.music_table.get? song_id = some song_name)
    (hfail : ∀ dir ∈ buildPaths constants settings,
      ∀ c ∈ candidatesFor dir song_name,
        ¬ c.2.all fs.fileExists = true ∨ startMsg fs c.1 c.2 = none) :
    sm.play_song song_id fs constants settings = (sm, Except.ok ()) := by
  have hnone : specResolve fs (buildPaths constants settings) song_name = none := by
    rw [specResolve, List.findSome?_eq_none_iff]
    intro dir hdir
    rw [List.findSome?_eq_none_iff]
    intro c hc
    rcases hfail dir hdir c hc with h | h
    · simp [resolveCandidate, h]
    · simp [resolveCandidate, h]
  rw [play_song_resolves fs constants settings sm song_id song_name hcur h0 hname, hnone]

/-- C3: `play_song 0` always leaves `current_song() = 0`; when the
current song id is non-zero it stores the old id into `prev_song_id`,
zeroes `current_song_id`, and sends `SaveState` then `Stop`, in that
order. -/
theorem claim_C3_play_song_zero (fs : Fs Song R) (constants : EngineConstants)
    (settings : Settings) (sm : SoundManager Song R) :
    (sm.play_song 0 fs constants settings).1.current_song = 0 ∧
    (sm.current_song_id ≠ 0 →
      sm.play_song 0 fs constants settings
        = ({ sm with
              prev_song_id := sm.current_song_id
              current_song_id := 0
              sent := sm.sent ++ [PlaybackMessage.saveState, PlaybackMessage.stop] },
           Except.ok ())) := by
  by_cases h : sm.current_song_id = 0
  · exact ⟨by simp [SoundManager.play_song, SoundManager.current_song, h],
      fun h' => absurd h h'⟩
  · exact ⟨by simp [SoundManager.play_song, SoundManager.current_song, h],
      fun _ => by simp [SoundManager.play_song, h]⟩

/-- C4: `play_song` on the currently tracked id is a complete no-op:
`Ok` is returned, nothing is sent, and both ids are unchanged. -/
theorem claim_C4_same_song_noop (fs : Fs Song R) (constants : EngineConstants)
    (settings : Settings) (sm : SoundManager Song R) :
    sm.play_song sm.current_song_id fs constants settings = (sm, Except.ok ()) := by
  simp [SoundManager.play_song]

/-- C6: `save_state` sends `SaveState` and then copies
`current_song_id` into `prev_song_id`; `restore_state` sends
`RestoreState` and then copies `prev_song_id` into `current_song_id`;
neither touches any other field, and both return `Ok`. -/
theorem claim_C6_save_restore_bookkeeping (sm : SoundManager Song R) :
    sm.save_state.1.sent = sm.sent ++ [PlaybackMessage.saveState] ∧
    sm.save_state.1.prev_song_id = sm.current_song_id ∧
    sm.save_state.1.current_song_id = sm.current_song_id ∧
    sm.save_state.2 = Except.ok () ∧
    sm.restore_state.1.sent = sm.sent ++ [PlaybackMessage.restoreState] ∧
    sm.restore_state.1.current_song_id = sm.prev_song_id ∧
    sm.restore_state.1.prev_song_id = sm.prev_song_id ∧
    sm.restore_state.2 = Except.ok () :=
  ⟨rfl, rfl, rfl, rfl, rfl, rfl, rfl, rfl⟩

/-- C7: `set_speed` rejects every factor `≤ 0` with an `InvalidValue`
error without enqueueing anything (the manager state, hence the
command queue, is unchanged), and forwards a `SetSpeed` command with
success for every factor `> 0`. -/
theorem claim_C7_set_speed_validation (sm : SoundManager Song R) (speed : ℚ) :
    (speed ≤ 0 →
      sm.set_speed speed
        = (sm, Except.error (GameError.InvalidValue "Speed must be bigger than 0.0!"))) ∧
    (0 < speed →
      sm.set_speed speed
        = ({ sm with sent := sm.sent ++ [PlaybackMessage.setSpeed speed] },
           Except.ok ())) := by
  constructor
  · intro h
    simp [SoundManager.set_speed, h]
  · intro h
    simp [SoundManager.set_speed, not_le.mpr h]

/-- C10: a non-zero song id with no entry in the music table degrades
silently: `play_song` returns `Ok`, sends nothing and leaves both ids
unchanged. -/
theorem claim_C10_missing_table_entry (fs : Fs Song R) (constants : EngineConstants)
    (settings : Settings) (sm : SoundManager Song R) (song_id : Nat)
    (hcur : sm.current_song_id ≠ song_id) (h0 : song_id ≠ 0)
    (hnone : constants.music_table.get? song_id = none) :
    sm.play_song song_id fs constants settings = (sm, Except.ok ()) := by
  unfold SoundManager.play_song
  rw [if_neg hcur, if_neg h0, hnone]

/-- C5: handling `RestoreState` always replaces the snapshot by `None`
(so an immediately repeated `RestoreState` changes nothing); an empty
snapshot leaves the state untouched; a non-empty snapshot
re-initializes the matching renderer from it via `set_state`, rewinds
it exactly when the thread was `Stopped`, re-renders the mix buffer,
resets the read cursor to zero and moves to the playing state of the
snapshot's format. -/
theorem claim_C5_restore_state_handler (orgOps : OrgOps EO SO Song)
    (oggOps : OggOps EG SG R) (pxtOps : PxtOps P) (sample_rate : ℚ)
    (st : RunState EO SO EG SG P) :
    (handleMessage orgOps oggOps pxtOps sample_rate st PlaybackMessage.restoreState).saved_state
        = PlaybackStateType.none
    ∧ handleMessage orgOps oggOps pxtOps sample_rate
        (handleMessage orgOps oggOps pxtOps sample_rate st PlaybackMessage.restoreState)
        PlaybackMessage.restoreState
      = handleMessage orgOps oggOps pxtOps sample_rate st PlaybackMessage.restoreState
    ∧ (st.saved_state = PlaybackStateType.none →
        handleMessage orgOps oggOps pxtOps sample_rate st PlaybackMessage.restoreState = st)
    ∧ (∀ s : SO, st.saved_state = PlaybackStateType.organya s →
        handleMessage orgOps oggOps pxtOps sample_rate st PlaybackMessage.restoreState
          = { st with
              state := PlaybackState.PlayingOrg
              saved_state := PlaybackStateType.none
              org_engine := (orgOps.render_to
                  (if st.state = PlaybackState.Stopped
                    then orgOps.rewind (orgOps.set_state st.org_engine s)
                    else orgOps.set_state st.org_engine s)
                  (fillFirst 0x8080 st.samples st.bgm_buf)).1
              bgm_buf := (orgOps.render_to
                  (if st.state = PlaybackState.Stopped
                    then orgOps.rewind (orgOps.set_state st.org_engine s)
                    else orgOps.set_state st.org_engine s)
                  (fillFirst 0x8080 st.samples st.bgm_buf)).2.1
              samples := (orgOps.render_to
                  (if st.state = PlaybackState.Stopped
                    then orgOps.rewind (orgOps.set_state st.org_engine s)
                    else orgOps.set_state st.org_engine s)
                  (fillFirst 0x8080 st.samples st.bgm_buf)).2.2
              bgm_index := 0 })
    ∧ (∀ s : SG, st.saved_state = PlaybackStateType.ogg s →
        handleMessage orgOps oggOps pxtOps sample_rate st PlaybackMessage.restoreState
          = { st with
              state := PlaybackState.PlayingOgg
              saved_state := PlaybackStateType.none
              ogg_engine := (oggOps.render_to
                  (if st.state = PlaybackState.Stopped
                    then oggOps.rewind (oggOps.set_state st.ogg_engine s)
                    else oggOps.set_state st.ogg_engine s)
                  (fillFirst 0x8000 st.samples st.bgm_buf)).1
              bgm_buf := (oggOps.render_to
                  (if st.state = PlaybackState.Stopped
                    then oggOps.rewind (oggOps.set_state st.ogg_engine s)
                    else oggOps.set_state st.ogg_engine s)
                  (fillFirst 0x8000 st.samples st.bgm_buf)).2.1
              samples := (oggOps.render_to
                  (if st.state = PlaybackState.Stopped
                    then oggOps.rewind (oggOps.set_state st.ogg_engine s)
                    else oggOps.set_state st.ogg_engine s)
                  (fillFirst 0x8000 st.samples st.bgm_buf)).2.2
              bgm_index := 0 }) := by
  cases h : st.saved_state with
  | none =>
    refine ⟨?_, ?_, ?_, ?_, ?_⟩
    · simp [handleMessage, h]
    · simp [handleMessage, h]
    · intro _
      simp only [handleMessage, h]
      rw [← h]
    · intro s hs
      exact absurd hs (by simp)
    · intro s hs
      exact absurd hs (by simp)
  | organya s0 =>
    refine ⟨?_, ?_, ?_, ?_, ?_⟩
    · simp [handleMessage, h]
    · simp [handleMessage, h]
    · intro hn
      exact absurd hn (by simp)
    · intro s hs
      injection hs with hss
      subst hss
      simp [handleMessage, h]
    · intro s hs
      exact absurd hs (by simp)
  | ogg s0 =>
    refine ⟨?_, ?_, ?_, ?_, ?_⟩
    · simp [handleMessage, h]
    · simp [handleMessage, h]
    · intro hn
      exact absurd hn (by simp)
    · intro s hs
      exact absurd hs (by simp)
    · intro s hs
      injection hs with hss
      subst hss
      simp [handleMessage, h]

/-- C8: a frame rendered while `Stopped`, with an all-mid-scale effects
buffer, puts exactly the unsigned mid-scale value `0x8000` on every
written channel (stereo and mono paths alike). -/
theorem claim_C8_stopped_mix_silence (orgOps : OrgOps EO SO Song)
    (oggOps : OggOps EG SG R) (pxtOps : PxtOps P) (sample_rate : ℚ)
    (channels : Nat) (st : RunState EO SO EG SG P)
    (hstop : st.state = PlaybackState.Stopped)
    (hsil : ∀ x ∈ st.pxt_buf, x = 0x8000)
    (hidx : st.pxt_index < st.pxt_buf.length) :
    ∀ y ∈ (frameStep orgOps oggOps pxtOps sample_rate channels st).2, y = 0x8000 := by
  have hp : st.pxt_buf.getD st.pxt_index 0 = 0x8000 := by
    rw [List.getD_eq_getElem?_getD, List.getElem?_eq_getElem hidx, Option.getD_some]
    exact hsil _ (List.getElem_mem hidx)
  have hmix : mix_sample 0x8000 0x8000 = 0x8000 := by decide
  have hmono : mix_sample_mono 0x8000 0x8000 0x8000 = 0x8000 := by decide
  have hout : (frameStep orgOps oggOps pxtOps sample_rate channels st).2
      = if 2 ≤ channels then [0x8000, 0x8000] else [0x8000] := by
    simp only [frameStep, getBgmPair, hstop, if_pos, if_true, reduceIte]
    rw [hp, hmix, hmono]
  intro y hy
  rw [hout] at hy
  rcases le_or_lt 2 channels with hc | hc
  · rw [if_pos hc] at hy
    rcases List.mem_cons.mp hy with rfl | hy'
    · rfl
    · rcases List.mem_cons.mp hy' with rfl | hy''
      · rfl
      · exact absurd hy'' (List.not_mem_nil y)
  · rw [if_neg (Nat.not_le.mpr hc)] at hy
    rcases List.mem_cons.mp hy with rfl | hy'
    · rfl
    · exact absurd hy' (List.not_mem_nil y)

/-- A boolean fan-in over the member list is the existence of an
agreeing member. -/
theorem combined_any_iff (l : List PlayerController) (p : PlayerController → Bool) :
    l.any p = true ↔ ∃ k ∈ l, p k = true := by
  simp [List.any_eq_true]

/-- The left fold the analog queries use computes the sum of the mapped
values. -/
theorem foldl_add_eq_sum (f : PlayerController → ℚ) (l : List PlayerController) :
    l.foldl (fun acc k => acc + f k) 0 = (l.map f).sum := by
  have h : ∀ a : ℚ, l.foldl (fun acc k => acc + f k) a = a + (l.map f).sum := by
    induction l with
    | nil => intro a; simp
    | cons x rest ih => intro a; simp [ih, add_assoc]
  simpa using h 0

/-- C9: every boolean query on the combined controller is true iff some
member answers true; each analog query is the members' sum clamped to
`[-1, 1]`; on the empty collection every boolean query is false and
every analog query is `0`. -/
theorem claim_C9_combined_controller (cs : List PlayerController) :
    ((CombinedPlayerController.mk cs).move_up = true ↔ ∃ k ∈ cs, k.move_up = true)
    ∧ ((CombinedPlayerController.mk cs).move_down = true ↔ ∃ k ∈ cs, k.move_down = true)
    ∧ ((CombinedPlayerController.mk cs).move_left = true ↔ ∃ k ∈ cs, k.move_left = true)
    ∧ ((CombinedPlayerController.mk cs).move_right = true ↔ ∃ k ∈ cs, k.move_right = true)
    ∧ ((CombinedPlayerController.mk cs).prev_weapon = true ↔ ∃ k ∈ cs, k.prev_weapon = true)
    ∧ ((CombinedPlayerController.mk cs).next_weapon = true ↔ ∃ k ∈ cs, k.next_weapon = true)
    ∧ ((CombinedPlayerController.mk cs).shoot = true ↔ ∃ k ∈ cs, k.shoot = true)
    ∧ ((CombinedPlayerController.mk cs).jump = true ↔ ∃ k ∈ cs, k.jump = true)
    ∧ ((CombinedPlayerController.mk cs).map = true ↔ ∃ k ∈ cs, k.map = true)
    ∧ ((CombinedPlayerController.mk cs).inventory = true ↔ ∃ k ∈ cs, k.inventory = true)
    ∧ ((CombinedPlayerController.mk cs).skip = true ↔ ∃ k ∈ cs, k.skip = true)
    ∧ ((CombinedPlayerController.mk cs).strafe = true ↔ ∃ k ∈ cs, k.strafe = true)
    ∧ ((CombinedPlayerController.mk cs).trigger_up = true ↔ ∃ k ∈ cs, k.trigger_up = true)
    ∧ ((CombinedPlayerController.mk cs).trigger_down = true ↔ ∃ k ∈ cs, k.trigger_down = true)
    ∧ ((CombinedPlayerController.mk cs).trigger_left = true ↔ ∃ k ∈ cs, k.trigger_left = true)
    ∧ ((CombinedPlayerController.mk cs).trigger_right = true ↔ ∃ k ∈ cs, k.trigger_right = true)
    ∧ ((CombinedPlayerController.mk cs).trigger_prev_weapon = true
        ↔ ∃ k ∈ cs, k.trigger_prev_weapon = true)
    ∧ ((CombinedPlayerController.mk cs).trigger_next_weapon = true
        ↔ ∃ k ∈ cs, k.trigger_next_weapon = true)
    ∧ ((CombinedPlayerController.mk cs).trigger_shoot = true ↔ ∃ k ∈ cs, k.trigger_shoot = true)
    ∧ ((CombinedPlayerController.mk cs).trigger_jump = true ↔ ∃ k ∈ cs, k.trigger_jump = true)
    ∧ ((CombinedPlayerController.mk cs).trigger_map = true ↔ ∃ k ∈ cs, k.trigger_map = true)
    ∧ ((CombinedPlayerController.mk cs).trigger_inventory = true
        ↔ ∃ k ∈ cs, k.trigger_inventory = true)
    ∧ ((CombinedPlayerController.mk cs).trigger_skip = true ↔ ∃ k ∈ cs, k.trigger_skip = true)
    ∧ ((CombinedPlayerController.mk cs).trigger_strafe = true
        ↔ ∃ k ∈ cs, k.trigger_strafe = true)
    ∧ ((CombinedPlayerController.mk cs).trigger_menu_ok = true
        ↔ ∃ k ∈ cs, k.trigger_menu_ok = true)
    ∧ ((CombinedPlayerController.mk cs).trigger_menu_back = true
        ↔ ∃ k ∈ cs, k.trigger_menu_back = true)
    ∧ ((CombinedPlayerController.mk cs).trigger_menu_pause = true
        ↔ ∃ k ∈ cs, k.trigger_menu_pause = true)
    ∧ ((CombinedPlayerController.mk cs).look_up = true ↔ ∃ k ∈ cs, k.look_up = true)
    ∧ ((CombinedPlayerController.mk cs).look_down = true ↔ ∃ k ∈ cs, k.look_down = true)
    ∧ ((CombinedPlayerController.mk cs).look_left = true ↔ ∃ k ∈ cs, k.look_left = true)
    ∧ ((CombinedPlayerController.mk cs).look_right = true ↔ ∃ k ∈ cs, k.look_right = true)
    ∧ (CombinedPlayerController.mk cs).move_analog_x
        = fclamp ((cs.map fun k => k.move_analog_x).sum) (-1) 1
    ∧ (CombinedPlayerController.mk cs).move_analog_y
        = fclamp ((cs.map fun k => k.move_analog_y).sum) (-1) 1
    ∧ CombinedPlayerController.new.move_up = false
    ∧ CombinedPlayerController.new.move_down = false
    ∧ CombinedPlayerController.new.move_left = false
    ∧ CombinedPlayerController.new.move_right = false
    ∧ CombinedPlayerController.new.prev_weapon = false
    ∧ CombinedPlayerController.new.next_weapon = false
    ∧ CombinedPlayerController.new.shoot = false
    ∧ CombinedPlayerController.new.jump = false
    ∧ CombinedPlayerController.new.map = false
    ∧ CombinedPlayerController.new.inventory = false
    ∧ CombinedPlayerController.new.skip = false
    ∧ CombinedPlayerController.new.strafe = false
    ∧ CombinedPlayerController.new.trigger_up = false
    ∧ CombinedPlayerController.new.trigger_down = false
    ∧ CombinedPlayerController.new.trigger_left = false
    ∧ CombinedPlayerController.new.trigger_right = false
    ∧ CombinedPlayerController.new.trigger_prev_weapon = false
    ∧ CombinedPlayerController.new.trigger_next_weapon = false
    ∧ CombinedPlayerController.new.trigger_shoot = false
    ∧ CombinedPlayerController.new.trigger_jump = false
    ∧ CombinedPlayerController.new.trigger_map = false
    ∧ CombinedPlayerController.new.trigger_inventory = false
    ∧ CombinedPlayerController.new.trigger_skip = false
    ∧ CombinedPlayerController.new.trigger_strafe = false
    ∧ CombinedPlayerController.new.trigger_menu_ok = false
    ∧ CombinedPlayerController.new.trigger_menu_back = false
    ∧ CombinedPlayerController.new.trigger_menu_pause = false
    ∧ CombinedPlayerController.new.look_up = false
    ∧ CombinedPlayerController.new.look_down = false
    ∧ CombinedPlayerController.new.look_left = false
    ∧ CombinedPlayerController.new.look_right = false
    ∧ CombinedPlayerController.new.move_analog_x = 0
    ∧ CombinedPlayerController.new.move_analog_y = 0 :=
  ⟨combined_any_iff cs _, combined_any_iff cs _, combined_any_iff cs _,
    combined_any_iff cs _, combined_any_iff cs _, combined_any_iff cs _,
    combined_any_iff cs _, combined_any_iff cs _, combined_any_iff cs _,
    combined_any_iff cs _, combined_any_iff cs _, combined_any_iff cs _,
    combined_any_iff cs _, combined_any_iff cs _, combined_any_iff cs _,
    combined_any_iff cs _, combined_any_iff cs _, combined_any_iff cs _,
    combined_any_iff cs _, combined_any_iff cs _, combined_any_iff cs _,
    combined_any_iff cs _, combined_any_iff cs _, combined_any_iff cs _,
    combined_any_iff cs _, combined_any_iff cs _, combined_any_iff cs _,
    combined_any_iff cs _, combined_any_iff cs _, combined_any_iff cs _,
    combined_any_iff cs _,
    by simp [CombinedPlayerController.move_analog_x, foldl_add_eq_sum],
    by simp [CombinedPlayerController.move_analog_y, foldl_add_eq_sum],
    rfl, rfl, rfl, rfl, rfl, rfl, rfl, rfl, rfl, rfl, rfl, rfl, rfl, rfl, rfl,
    rfl, rfl, rfl, rfl, rfl, rfl, rfl, rfl, rfl, rfl, rfl, rfl, rfl, rfl, rfl,
    rfl, by decide, by decide⟩

/-! ## Witnesses -/

/-- Witness for C1: with only `/Soundtracks/ST/quiet.org` present, song
id 1 resolves to the Organya start command after `SaveState`, with the
ids updated. -/
theorem claim_C1_witness :
    sm0.current_song_id ≠ 1 ∧ (1 : Nat) ≠ 0 ∧
    constants0.music_table.get? 1 = some "quiet" ∧
    sm0.play_song 1 fs0 constants0 settings0
      = ({ sent := [PlaybackMessage.saveState, PlaybackMessage.playOrganyaSong 42],
           prev_song_id := 0, current_song_id := 1 }, Except.ok ()) :=
  ⟨by decide, by decide, rfl,
    (claim_C1_resolution_order fs0 constants0 settings0 sm0 1 "quiet"
      (by decide) (by decide) rfl).trans (by rfl)⟩

/-- Witness for C2: with no file present at all, every candidate fails
and `play_song 1` is a silent no-op returning `Ok`. -/
theorem claim_C2_witness :
    sm0.current_song_id ≠ 1 ∧ (1 : Nat) ≠ 0 ∧
    constants0.music_table.get? 1 = some "quiet" ∧
    (∀ dir ∈ buildPaths constants0 settings0, ∀ c ∈ candidatesFor dir "quiet",
      ¬ c.2.all fsEmpty.fileExists = true ∨ startMsg fsEmpty c.1 c.2 = none) ∧
    sm0.play_song 1 fsEmpty constants0 settings0 = (sm0, Except.ok ()) :=
  ⟨by decide, by decide, rfl, by decide,
    claim_C2_all_candidates_fail_silent fsEmpty constants0 settings0 sm0 1 "quiet"
      (by decide) (by decide) rfl (by decide)⟩

/-- Witness for C3: stopping from song 7 records it in `prev_song_id`
and sends `SaveState` then `Stop`. -/
theorem claim_C3_witness :
    (sm1.play_song 0 fs0 constants0 settings0).1.current_song = 0 ∧
    sm1.current_song_id ≠ 0 ∧
    sm1.play_song 0 fs0 constants0 settings0
      = ({ sm1 with
            prev_song_id := sm1.current_song_id
            current_song_id := 0
            sent := sm1.sent ++ [PlaybackMessage.saveState, PlaybackMessage.stop] },
         Except.ok ()) :=
  ⟨(claim_C3_play_song_zero fs0 constants0 settings0 sm1).1, by decide,
    (claim_C3_play_song_zero fs0 constants0 settings0 sm1).2 (by decide)⟩

/-- Witness for C5: restoring an Organya snapshot onto a stopped thread
rewinds (engine `2` → `set_state` → `205` → `rewind` → `1205`), while
restoring an Ogg snapshot onto a playing thread does not rewind
(engine `3` → `set_state` → `309`); an empty snapshot leaves the state
unchanged. -/
theorem claim_C5_witness :
    (handleMessage orgOps0 oggOps0 pxtOps0 1 st_org PlaybackMessage.restoreState).saved_state
        = PlaybackStateType.none
    ∧ st_none.saved_state = PlaybackStateType.none
    ∧ handleMessage orgOps0 oggOps0 pxtOps0 1 st_none PlaybackMessage.restoreState = st_none
    ∧ st_org.saved_state = PlaybackStateType.organya 5
    ∧ handleMessage orgOps0 oggOps0 pxtOps0 1 st_org PlaybackMessage.restoreState
        = { st_org with
            state := PlaybackState.PlayingOrg
            saved_state := PlaybackStateType.none
            org_engine := 1205
            bgm_buf := [0x8080, 0x8080, 3, 4]
            samples := 4
            bgm_index := 0 }
    ∧ st_ogg.saved_state = PlaybackStateType.ogg 9
    ∧ handleMessage orgOps0 oggOps0 pxtOps0 1 st_ogg PlaybackMessage.restoreState
        = { st_ogg with
            state := PlaybackState.PlayingOgg
            saved_state := PlaybackStateType.none
            ogg_engine := 309
            bgm_buf := [0x8000, 0x8000, 3, 4]
            samples := 4
            bgm_index := 0 } := by
  have h1 := (claim_C5_restore_state_handler orgOps0 oggOps0 pxtOps0 1 st_org).1
  have h2 := (claim_C5_restore_state_handler orgOps0 oggOps0 pxtOps0 1 st_none).2.2.1 rfl
  have h3 := (claim_C5_restore_state_handler orgOps0 oggOps0 pxtOps0 1 st_org).2.2.2.1 5 rfl
  have h4 := (claim_C5_restore_state_handler orgOps0 oggOps0 pxtOps0 1 st_ogg).2.2.2.2 9 rfl
  exact ⟨h1, rfl, h2, rfl, h3.trans (by rfl), rfl, h4.trans (by rfl)⟩

/-- Witness for C7: factor `-1` is rejected with `InvalidValue` and no
command, factor `2` is forwarded with success. -/
theorem claim_C7_witness :
    ((-1 : ℚ) ≤ 0
      ∧ sm0.set_speed (-1)
          = (sm0, Except.error (GameError.InvalidValue "Speed must be bigger than 0.0!")))
    ∧ ((0 : ℚ) < 2
      ∧ sm0.set_speed 2
          = ({ sm0 with sent := sm0.sent ++ [PlaybackMessage.setSpeed 2] }, Except.ok ())) :=
  ⟨⟨by norm_num, (claim_C7_set_speed_validation sm0 (-1)).1 (by norm_num)⟩,
    ⟨by norm_num, (claim_C7_set_speed_validation sm0 2).2 (by norm_num)⟩⟩

/-- Witness for C8: a stereo frame rendered on the stopped state
`st_stop` with an all-`0x8000` effects buffer emits only `0x8000`. -/
theorem claim_C8_witness :
    st_stop.state = PlaybackState.Stopped ∧
    (∀ x ∈ st_stop.pxt_buf, x = 0x8000) ∧
    st_stop.pxt_index < st_stop.pxt_buf.length ∧
    ∀ y ∈ (frameStep orgOps0 oggOps0 pxtOps0 1 2 st_stop).2, y = 0x8000 :=
  ⟨rfl, by decide, by decide,
    claim_C8_stopped_mix_silence orgOps0 oggOps0 pxtOps0 1 2 st_stop rfl
      (by decide) (by decide)⟩

/-- Witness for C10: song id 5 has no music-table entry, so `play_song`
is a silent successful no-op. -/
theorem claim_C10_witness :
    sm0.current_song_id ≠ 5 ∧ (5 : Nat) ≠ 0 ∧
    constants0.music_table.get? 5 = none ∧
    sm0.play_song 5 fs0 constants0 settings0 = (sm0, Except.ok ()) :=
  ⟨by decide, by decide, rfl,
    claim_C10_missing_table_entry fs0 constants0 settings0 sm0 5
      (by decide) (by decide) rfl⟩

end DoukutsuRS
